import Mathlib

/-!
Verification of the PrismHR MCP relay server
(`src/server/prismhr_mcp_server.py` and `src/server/small_prismhr_mcp_server.py`).

The program consists of one session authenticator (`authenticate_prismhr`,
identical in both files) and ~253 relay tools that all share one body shape:

  1. read `PRISMHR_USERNAME` / `PRISMHR_PASSWORD` / `PRISMHR_PEO_ID` /
     `PRISMHR_BASE_URL` from the process environment;
  2. if `not all([username, password, peo_id])`, return
     `{"error": "Missing PrismHR credentials"}`;
  3. call `authenticate_prismhr`; if the result is falsy, return
     `{"error": "Authentication failed"}`;
  4. build a query-parameter dict (required params always, optional string
     params only when truthy, optional bools when not `None`, lowercased),
     encode it with `urllib.parse.urlencode` (with `doseq=True` on a few
     endpoints, and with manually bracket-indexed keys `k[0]`, `k[1]`, ... on
     a few others), issue the GET, parse the JSON body, and return it;
  5. any exception in the whole body is caught and converted to
     `{"error": "<operation name> failed: <exception>"}`.

The embedding models Python JSON values (`Json`), the environment (`Env`),
the network as an oracle (`World`: the parsed-or-raised outcome of the
authentication POST and of each GET by full URL), and records the I/O that
a call performs as a trace of `NetEvent`s, so that "no HTTP call is made"
is the trace being empty.
-/

/-- A Python value as produced by `json.loads`, with `Json.null` also standing
for Python `None` (which is exactly what `json.loads` maps JSON `null` to,
and what `dict.get` returns for a missing key). -/
inductive Json where
  | null : Json
  | bool : Bool → Json
  | str : String → Json
  | num : Int → Json
  | arr : List Json → Json
  | obj : List (String × Json) → Json

/-- Python truthiness (`if x:`) on JSON-shaped values: `None`, `False`, `0`,
`""`, `[]` and `{}` are falsy, everything else truthy. -/
def pyTruthy : Json → Bool
  | Json.null => false
  | Json.bool b => b
  | Json.str s => s != ""
  | Json.num n => n != 0
  | Json.arr l => !l.isEmpty
  | Json.obj l => !l.isEmpty

/-- Python `x.get(k)` on a value `x` returned by `json.loads`: on a dict it
returns the stored value or `None`; on any other value it raises
`AttributeError` (modelled as `Except.error`). -/
def dictGet : Json → String → Except String Json
  | Json.obj kvs, k => Except.ok ((kvs.lookup k).getD Json.null)
  | _, _ => Except.error "AttributeError"

/-- `x.get(k)` restricted to the case where `x` is known to be a dict
(missing key gives Python `None`, i.e. `Json.null`). -/
def pyGet (j : Json) (k : String) : Json :=
  match j with
  | Json.obj kvs => (kvs.lookup k).getD Json.null
  | _ => Json.null

/-- Python `x == "0"`: true exactly when `x` is the string `"0"`. -/
def isStrZero : Json → Bool
  | Json.str s => s == "0"
  | _ => false

/-- Truthiness of an `os.getenv` result: `None` (unset) and `""` are falsy. -/
def optTruthy : Option String → Bool
  | none => false
  | some s => s != ""

/-- The process environment: a finite map from variable names to values
(a variable may be present with the empty string as its value). -/
structure Env where
  vars : List (String × String)

/-- `os.getenv(k)`: `None` when the variable is unset. -/
def getenv (e : Env) (k : String) : Option String :=
  e.vars.lookup k

/-- The default base URL hard-coded in every function of the source. -/
def defaultBaseUrl : String := "https://salesdemoapi.prismhr.com/prismhr-api"

/-- `os.getenv("PRISMHR_BASE_URL", "https://salesdemoapi.prismhr.com/prismhr-api")`. -/
def baseUrlOf (e : Env) : String :=
  (getenv e "PRISMHR_BASE_URL").getD defaultBaseUrl

/-- The credential check `all([username, password, peo_id])` performed by
every relay tool (Python `all` over possibly-`None`, possibly-empty
strings: truthiness of each). -/
def credsPresent (e : Env) : Bool :=
  optTruthy (getenv e "PRISMHR_USERNAME") &&
  optTruthy (getenv e "PRISMHR_PASSWORD") &&
  optTruthy (getenv e "PRISMHR_PEO_ID")

/-! ### `urllib.parse.urlencode`

`urlencode` quotes every key and value with `quote_plus` (safe set
`A-Za-z0-9_.-~`, space becomes `+`, every other byte of the UTF-8 encoding
becomes `%XX` with uppercase hex) and joins `k=v` items with `&`. -/

/-- Uppercase hexadecimal digit for `n < 16`. -/
def hexDigit (n : Nat) : Char :=
  if n < 10 then Char.ofNat (48 + n) else Char.ofNat (55 + n)

/-- The UTF-8 encoding of one character, as byte values. -/
def utf8Bytes (c : Char) : List Nat :=
  let n := c.toNat
  if n < 128 then [n]
  else if n < 2048 then [192 + n / 64, 128 + n % 64]
  else if n < 65536 then [224 + n / 4096, 128 + (n / 64) % 64, 128 + n % 64]
  else [240 + n / 262144, 128 + (n / 4096) % 64, 128 + (n / 64) % 64, 128 + n % 64]

/-- Characters `quote_plus` leaves unencoded: `A-Z`, `a-z`, `0-9`, `_.-~`. -/
def isSafeChar (c : Char) : Bool :=
  let n := c.toNat
  (65 ≤ n && n ≤ 90) || (97 ≤ n && n ≤ 122) || (48 ≤ n && n ≤ 57) ||
  n == 95 || n == 46 || n == 45 || n == 126

/-- `%XX` escape of one byte, uppercase hex. -/
def percentByte (b : Nat) : String :=
  String.mk ['%', hexDigit (b / 16 % 16), hexDigit (b % 16)]

/-- `urllib.parse.quote_plus` with the empty safe set, as used by
`urlencode`. -/
def quote_plus (s : String) : String :=
  String.join (s.data.map fun c =>
    if isSafeChar c then String.mk [c]
    else if c == ' ' then "+"
    else String.join ((utf8Bytes c).map percentByte))

/-- `urllib.parse.urlencode` applied to an already-flattened ordered list of
key/value string pairs (Python dicts preserve insertion order; `doseq=True`
flattens a list-valued entry into one pair per element at its position). -/
def urlencode (pairs : List (String × String)) : String :=
  String.intercalate "&" (pairs.map fun p => quote_plus p.1 ++ "=" ++ quote_plus p.2)

/-! ### The network oracle and the I/O trace -/

/-- One outward HTTP call performed by the program. -/
inductive NetEvent where
  | authCall : String → NetEvent
  | endpointCall : String → NetEvent

/-- The environment's response behaviour for one invocation:
`authOutcome` is the combined outcome of the `createPeoSession` POST plus
`json.loads` of its body (an exception anywhere in that block is
`Except.error`); `endpointOutcome url` is likewise the outcome of the GET at
`url` plus the JSON parse of its body. -/
structure World where
  authOutcome : Except String Json
  endpointOutcome : String → Except String Json

/-- `authenticate_prismhr(username, password, peo_id, base_url)`
(`prismhr_mcp_server.py` lines 18–59; byte-identical in
`small_prismhr_mcp_server.py`): POSTs the credentials to
`<base_url>/services/rest/login/v1/createPeoSession`; inside `try`, parses
the JSON body and returns `auth_result.get("sessionId")` when
`auth_result.get("errorCode") == "0"`, otherwise `None`; every exception
(network, timeout, JSON parse, `.get` on a non-dict) is caught and turned
into `None`. The returned trace records the POST, which is attempted in all
cases. -/
def authenticate_prismhr (username password peo_id base_url : String) (w : World) :
    Json × List NetEvent :=
  let auth_url := base_url ++ "/services/rest/login/v1/createPeoSession"
  let events := [NetEvent.authCall auth_url]
  match w.authOutcome with
  | Except.error _ => (Json.null, events)
  | Except.ok auth_result =>
    match dictGet auth_result "errorCode" with
    | Except.error _ => (Json.null, events)
    | Except.ok ec =>
      if isStrZero ec then (pyGet auth_result "sessionId", events)
      else (Json.null, events)

/-- The line `session_id = authenticate_prismhr(username, password, peo_id,
base_url)` as it occurs in every relay tool, with the credentials and base
URL resolved from the environment exactly as the tools resolve them. -/
def relayAuth (e : Env) (w : World) : Json × List NetEvent :=
  authenticate_prismhr ((getenv e "PRISMHR_USERNAME").getD "")
    ((getenv e "PRISMHR_PASSWORD").getD "")
    ((getenv e "PRISMHR_PEO_ID").getD "") (baseUrlOf e) w

/-- `full_url = f"{url}?{query_string}"` with `url = f"{base_url}{path}"`. -/
def fullUrl (e : Env) (path : String) (pairs : List (String × String)) : String :=
  baseUrlOf e ++ path ++ "?" ++ urlencode pairs

/-- `{"error": "Missing PrismHR credentials"}`. -/
def missingCredsDict : Json := Json.obj [("error", Json.str "Missing PrismHR credentials")]

/-- `{"error": "Authentication failed"}`. -/
def authFailedDict : Json := Json.obj [("error", Json.str "Authentication failed")]

/-- `{"error": f"<operation name> failed: {e}"}` — the dict built by the
blanket `except` clause of a relay tool, e.g.
`{"error": f"Get employee list failed: {e}"}`. -/
def errDict (opName msg : String) : Json :=
  Json.obj [("error", Json.str (opName ++ ": " ++ msg))]

/-- The shared body of every relay tool (e.g. `get_employee_list`,
`prismhr_mcp_server.py` lines 176–230): resolve credentials, short-circuit
on missing credentials, authenticate, short-circuit on a falsy session id,
build `full_url` from the endpoint path and the query pairs, issue the GET,
and return the parsed JSON body; an exception in the GET-and-parse step is
caught and converted to `errDict`. The trace lists the HTTP calls made.
Individual tools differ only in `path`, `opName` and `queryPairs`. -/
def relayCall (path opName : String) (queryPairs : List (String × String))
    (e : Env) (w : World) : Json × List NetEvent :=
  if credsPresent e then
    let auth := relayAuth e w
    if pyTruthy auth.1 then
      match w.endpointOutcome (fullUrl e path queryPairs) with
      | Except.ok result =>
        (result, auth.2 ++ [NetEvent.endpointCall (fullUrl e path queryPairs)])
      | Except.error msg =>
        (errDict opName msg, auth.2 ++ [NetEvent.endpointCall (fullUrl e path queryPairs)])
    else (authFailedDict, auth.2)
  else (missingCredsDict, [])

/-- Whether a trace contains an endpoint (non-authentication) HTTP call. -/
def hasEndpointCall (tr : List NetEvent) : Bool :=
  tr.any fun ev => match ev with
    | NetEvent.endpointCall _ => true
    | NetEvent.authCall _ => false

/-! ### The tools the claims cite, as instances of `relayCall` -/

/-- An optional string parameter added by `if x: params[k] = x`
(Python truthiness: `None` and `""` are both skipped). -/
def optStrPairs (k : String) (v : Option String) : List (String × String) :=
  match v with
  | none => []
  | some s => if s == "" then [] else [(k, s)]

/-- An optional boolean parameter added by
`if b is not None: params[k] = str(b).lower()`. -/
def optBoolPairs (k : String) (v : Option Bool) : List (String × String) :=
  match v with
  | none => []
  | some b => [(k, if b then "true" else "false")]

/-- Query pairs of `get_employee_list` (lines 203–211): `clientId` always,
`statusClass`/`typeClass` only when truthy. -/
def get_employee_list_params (client_id : String)
    (status_class type_class : Option String) : List (String × String) :=
  [("clientId", client_id)] ++ optStrPairs "statusClass" status_class ++
    optStrPairs "typeClass" type_class

/-- `get_employee_list(client_id, status_class=None, type_class=None)`
(`prismhr_mcp_server.py` lines 176–230). -/
def get_employee_list (client_id : String) (status_class type_class : Option String)
    (e : Env) (w : World) : Json × List NetEvent :=
  relayCall "/services/rest/employee/v1/getEmployeeList" "Get employee list failed"
    (get_employee_list_params client_id status_class type_class) e w

/-- Query pairs of `get_absence_journal` (lines 626–632): the dict
`{"clientId": client_id, "journalId": journal_id}` flattened by
`urlencode(params, doseq=True)` — one `journalId` pair per list element, in
order. -/
def get_absence_journal_params (client_id : String) (journal_id : List String) :
    List (String × String) :=
  ("clientId", client_id) :: journal_id.map fun j => ("journalId", j)

/-- `get_absence_journal(client_id, journal_id)` (lines 598–650); the one
relay tool shape that uses `doseq=True`. -/
def get_absence_journal (client_id : String) (journal_id : List String)
    (e : Env) (w : World) : Json × List NetEvent :=
  relayCall "/services/rest/benefits/v1/getAbsenceJournal" "Get absence journal failed"
    (get_absence_journal_params client_id journal_id) e w

/-- Query pairs of `reprint_1099` (lines 8486–8497): `clientId` and `year`,
then the loop `for i, emp_id in enumerate(employee_id):
params[f"employeeId[{i}]"] = emp_id` — bracket-indexed keys, one per
element, encoded by plain `urlencode`. -/
def reprint_1099_params (client_id : String) (employee_id : List String)
    (year : String) : List (String × String) :=
  [("clientId", client_id), ("year", year)] ++
    employee_id.enum.map fun p => ("employeeId[" ++ toString p.1 ++ "]", p.2)

/-- `reprint_1099(client_id, employee_id, year)` (lines 8457–8514). -/
def reprint_1099 (client_id : String) (employee_id : List String) (year : String)
    (e : Env) (w : World) : Json × List NetEvent :=
  relayCall "/services/rest/employee/v1/reprint1099" "Reprint 1099 failed"
    (reprint_1099_params client_id employee_id year) e w

/-- Query pairs of `get_retirement_plan` (lines 2962–2972): `clientId` and
`employeeId` always, `effectiveDate` when truthy, and `isActive` whenever
`is_active is not None`, serialized as `str(is_active).lower()`. -/
def get_retirement_plan_params (client_id employee_id : String)
    (effective_date : Option String) (is_active : Option Bool) :
    List (String × String) :=
  [("clientId", client_id), ("employeeId", employee_id)] ++
    optStrPairs "effectiveDate" effective_date ++ optBoolPairs "isActive" is_active

/-- `get_retirement_plan(client_id, employee_id, effective_date=None,
is_active=None)` (lines 2929–2991). -/
def get_retirement_plan (client_id employee_id : String)
    (effective_date : Option String) (is_active : Option Bool)
    (e : Env) (w : World) : Json × List NetEvent :=
  relayCall "/services/rest/benefits/v1/getRetirementPlan" "Get retirement plan failed"
    (get_retirement_plan_params client_id employee_id effective_date is_active) e w

/-- Python dict assignment `params[k] = v` on an insertion-ordered dict:
if the key is present its value is replaced in place, otherwise the pair is
appended. -/
def dictAssign (d : List (String × String)) (k v : String) : List (String × String) :=
  if d.any (fun p => p.1 == k) then
    d.map (fun p => if p.1 == k then (k, v) else p)
  else d ++ [(k, v)]

/-- Query pairs of `download_w2` (lines 7122–7130): the dict
`{"clientId": client_id, "year": year}` then the loop
`for eid in employee_id: params["employeeId"] = eid`, which reassigns the
single dict key `employeeId` once per element — so at most one pair
survives, carrying the last element. `download_1095c` (lines 7062–7070) is
identical apart from the path. -/
def download_w2_params (client_id : String) (employee_id : List String)
    (year : String) : List (String × String) :=
  employee_id.foldl (fun params eid => dictAssign params "employeeId" eid)
    [("clientId", client_id), ("year", year)]

/-- `download_w2(client_id, employee_id, year)` (lines 7087–7144). -/
def download_w2 (client_id : String) (employee_id : List String) (year : String)
    (e : Env) (w : World) : Json × List NetEvent :=
  relayCall "/services/rest/employee/v1/downloadW2" "Download W2 failed"
    (download_w2_params client_id employee_id year) e w

/-- Python `str` of a list of strings, as `urlencode` applies it to a
non-string dict value: `str(['C1', 'C2'])` is `"['C1', 'C2']"`. (Faithful
for element strings without quotes, backslashes or control characters,
which `repr` would escape.) -/
def pyReprStrList (l : List String) : String :=
  "[" ++ String.intercalate ", " (l.map fun s => "'" ++ s ++ "'") ++ "]"

/-- Query pairs of `get_ar_transaction_report` (lines 13280–13290):
`startDate`/`endDate` always, `downloadId` when truthy, and — when the
optional list `client_id` is truthy (non-`None` and non-empty) — the raw
list is assigned to `params["clientId"]`, so plain `urlencode` emits one
single pair whose value is `str` of the whole list. -/
def get_ar_transaction_report_params (start_date end_date : String)
    (download_id : Option String) (client_id : Option (List String)) :
    List (String × String) :=
  [("startDate", start_date), ("endDate", end_date)] ++
    optStrPairs "downloadId" download_id ++
    (match client_id with
     | none => []
     | some l => if l.isEmpty then [] else [("clientId", pyReprStrList l)])

/-- `get_ar_transaction_report(start_date, end_date, download_id=None,
client_id=None)` (lines 13247–13311). -/
def get_ar_transaction_report (start_date end_date : String)
    (download_id : Option String) (client_id : Option (List String))
    (e : Env) (w : World) : Json × List NetEvent :=
  relayCall "/services/rest/system/v1/getARTransactionReport"
    "Get AR transaction report failed"
    (get_ar_transaction_report_params start_date end_date download_id client_id) e w

/-- An optional boolean parameter added by `if b is not None:
params[k] = b` — the raw boolean, which `urlencode` stringifies with
`str(b)`, i.e. capitalized `"True"`/`"False"` (unlike the eight other
boolean optionals in the source, which go through `str(b).lower()`). -/
def optBoolRawPairs (k : String) (v : Option Bool) : List (String × String) :=
  match v with
  | none => []
  | some b => [(k, if b then "True" else "False")]

/-- Query pairs of `get_payroll_summary` (lines 11262–11275): `clientId`
always, four optional strings when truthy, and `includeDetails` assigned
raw whenever `include_details is not None`. -/
def get_payroll_summary_params (client_id : String)
    (year batch_type batch_id : Option String) (include_details : Option Bool)
    (sort : Option String) : List (String × String) :=
  [("clientId", client_id)] ++ optStrPairs "year" year ++
    optStrPairs "batchType" batch_type ++ optStrPairs "batchId" batch_id ++
    optBoolRawPairs "includeDetails" include_details ++ optStrPairs "sort" sort

/-- `get_payroll_summary(client_id, year=None, batch_type=None,
batch_id=None, include_details=None, sort=None)` (lines 11226–11297). -/
def get_payroll_summary (client_id : String)
    (year batch_type batch_id : Option String) (include_details : Option Bool)
    (sort : Option String) (e : Env) (w : World) : Json × List NetEvent :=
  relayCall "/services/rest/payroll/v1/getPayrollSummary"
    "Get payroll summary failed"
    (get_payroll_summary_params client_id year batch_type batch_id include_details sort)
    e w

/-! ### The tool-invocation boundary

A tool's required parameters are exactly the Python parameters declared
without a default. Invoking a tool with a required argument missing never
enters the function body: Python raises `TypeError` at the call itself, and
the hosting framework (which validates arguments against the declared
schema) surfaces an error result to the caller. The `invoke_*` functions
model that boundary: `Except.error` is a rejected invocation, and the trace
is the network I/O performed. -/

/-- Invocation of `get_employee_list` with `client_id` possibly missing. -/
def invoke_get_employee_list (client_id : Option String)
    (status_class type_class : Option String) (e : Env) (w : World) :
    Except String Json × List NetEvent :=
  match client_id with
  | none => (Except.error "TypeError: missing required argument client_id", [])
  | some c =>
    let r := get_employee_list c status_class type_class e w
    (Except.ok r.1, r.2)

/-- Invocation of `get_absence_journal` with either required argument
possibly missing. -/
def invoke_get_absence_journal (client_id : Option String)
    (journal_id : Option (List String)) (e : Env) (w : World) :
    Except String Json × List NetEvent :=
  match client_id, journal_id with
  | some c, some js =>
    let r := get_absence_journal c js e w
    (Except.ok r.1, r.2)
  | _, _ => (Except.error "TypeError: missing required argument", [])

/-! ### Branch lemmas for `relayCall` and fixed test fixtures -/

/-- `authenticate_prismhr` always performs exactly the one authentication
POST, whatever the outcome. -/
theorem authenticate_prismhr_trace (u p q b : String) (w : World) :
    (authenticate_prismhr u p q b w).2
      = [NetEvent.authCall (b ++ "/services/rest/login/v1/createPeoSession")] := by
  unfold authenticate_prismhr
  split
  · rfl
  · split
    · rfl
    · split <;> rfl

/-- The trace of the authentication step of a relay tool. -/
theorem relayAuth_trace (e : Env) (w : World) :
    (relayAuth e w).2
      = [NetEvent.authCall (baseUrlOf e ++ "/services/rest/login/v1/createPeoSession")] := by
  unfold relayAuth
  exact authenticate_prismhr_trace _ _ _ _ _

/-- `relayCall` on missing credentials: error dict, no I/O at all. -/
theorem relayCall_missingCreds (path opName : String) (pairs : List (String × String))
    (e : Env) (w : World) (hc : credsPresent e = false) :
    relayCall path opName pairs e w = (missingCredsDict, []) := by
  unfold relayCall
  rw [hc]
  rfl

/-- `relayCall` when authentication yields a falsy session value. -/
theorem relayCall_authFailed (path opName : String) (pairs : List (String × String))
    (e : Env) (w : World) (hc : credsPresent e = true)
    (hp : pyTruthy (relayAuth e w).1 = false) :
    relayCall path opName pairs e w = (authFailedDict, (relayAuth e w).2) := by
  unfold relayCall
  rw [hc]
  simp only [if_true, hp, Bool.false_eq_true, if_false]

/-- `relayCall` on a successful upstream response. -/
theorem relayCall_ok (path opName : String) (pairs : List (String × String))
    (e : Env) (w : World) (j : Json) (hc : credsPresent e = true)
    (hp : pyTruthy (relayAuth e w).1 = true)
    (hr : w.endpointOutcome (fullUrl e path pairs) = Except.ok j) :
    relayCall path opName pairs e w
      = (j, (relayAuth e w).2 ++ [NetEvent.endpointCall (fullUrl e path pairs)]) := by
  unfold relayCall
  rw [hc]
  simp only [if_true, hp, hr]

/-- `relayCall` when the endpoint GET (or the parse of its body) raises. -/
theorem relayCall_endpointErr (path opName : String) (pairs : List (String × String))
    (e : Env) (w : World) (m : String) (hc : credsPresent e = true)
    (hp : pyTruthy (relayAuth e w).1 = true)
    (hr : w.endpointOutcome (fullUrl e path pairs) = Except.error m) :
    relayCall path opName pairs e w
      = (errDict opName m, (relayAuth e w).2 ++ [NetEvent.endpointCall (fullUrl e path pairs)]) := by
  unfold relayCall
  rw [hc]
  simp only [if_true, hp, hr]

/-- An environment carrying all three credentials. -/
def envOK : Env :=
  ⟨[("PRISMHR_USERNAME", "u"), ("PRISMHR_PASSWORD", "p"), ("PRISMHR_PEO_ID", "q")]⟩

/-- An environment with `PRISMHR_PEO_ID` unset. -/
def envNoPeo : Env :=
  ⟨[("PRISMHR_USERNAME", "u"), ("PRISMHR_PASSWORD", "p")]⟩

/-- An environment with `PRISMHR_PEO_ID` set to the empty string. -/
def envEmptyPeo : Env :=
  ⟨[("PRISMHR_USERNAME", "u"), ("PRISMHR_PASSWORD", "p"), ("PRISMHR_PEO_ID", "")]⟩

/-- A successful authentication response body. -/
def authJsonOk : Json :=
  Json.obj [("errorCode", Json.str "0"), ("sessionId", Json.str "abc123")]

/-- A world in which the authentication POST raises (e.g. a timeout) and any
endpoint GET would raise too. -/
def wAuthErr : World :=
  { authOutcome := Except.error "timeout"
    endpointOutcome := fun _ => Except.error "unreachable" }

/-- A world in which authentication succeeds and any endpoint GET raises
with message `boom`. -/
def wEndErr : World :=
  { authOutcome := Except.ok authJsonOk
    endpointOutcome := fun _ => Except.error "boom" }

/-- The §8 end-to-end world: authentication answers
`{"errorCode": "0", "sessionId": "abc123"}` and the `getEmployeeList` GET
for `clientId=132` answers `{"employees": []}`. -/
def wScenario : World :=
  { authOutcome := Except.ok authJsonOk
    endpointOutcome := fun url =>
      if url = "https://salesdemoapi.prismhr.com/prismhr-api/services/rest/employee/v1/getEmployeeList?clientId=132"
      then Except.ok (Json.obj [("employees", Json.arr [])])
      else Except.error "HTTP Error 404" }

/-- A world whose authentication response has `errorCode "0"` but no
`sessionId` field at all. -/
def wNoSession : World :=
  { authOutcome := Except.ok (Json.obj [("errorCode", Json.str "0")])
    endpointOutcome := fun _ => Except.error "unreachable" }

/-! ### The claims -/

/-- C1: for every call to `authenticate_prismhr`: if the parsed JSON
response has an `errorCode` field equal to the string `"0"`, the function
returns the response's `sessionId` field; for any non-`"0"` error code and
for any exception while performing the POST or parsing its body it returns
the no-token sentinel (`None`, i.e. `Json.null`) instead of raising. -/
theorem C1_authenticator_contract (u p q b : String) (w : World) :
    (∀ m, w.authOutcome = Except.error m →
      (authenticate_prismhr u p q b w).1 = Json.null)
    ∧ (∀ j, w.authOutcome = Except.ok j →
        dictGet j "errorCode" = Except.ok (Json.str "0") →
        (authenticate_prismhr u p q b w).1 = pyGet j "sessionId")
    ∧ (∀ j ec, w.authOutcome = Except.ok j →
        dictGet j "errorCode" = Except.ok ec → ec ≠ Json.str "0" →
        (authenticate_prismhr u p q b w).1 = Json.null) := by
  have hzero : ∀ ec : Json, isStrZero ec = true ↔ ec = Json.str "0" := by
    intro ec
    cases ec <;> simp [isStrZero]
  refine ⟨?_, ?_, ?_⟩
  · intro m hm
    unfold authenticate_prismhr
    rw [hm]
  · intro j hj hec
    unfold authenticate_prismhr
    rw [hj]
    simp only [hec]
    rw [if_pos ((hzero (Json.str "0")).mpr rfl)]
  · intro j ec hj hec hne
    unfold authenticate_prismhr
    rw [hj]
    simp only [hec]
    rw [if_neg (fun h => hne ((hzero ec).mp h))]

/-- Witness for C1: on the concrete response
`{"errorCode": "0", "sessionId": "abc123"}` the authenticator returns
`"abc123"`. -/
theorem C1_authenticator_contract_witness :
    (authenticate_prismhr "u" "p" "q" defaultBaseUrl wEndErr).1 = Json.str "abc123" := by
  have h := (C1_authenticator_contract "u" "p" "q" defaultBaseUrl wEndErr).2.1
    authJsonOk rfl rfl
  exact h.trans rfl

/-- C2: for every relay tool (any endpoint path, operation name and query
pairs) and every input, if the authenticator yields no token (`None`), the
tool returns exactly `{"error": "Authentication failed"}` and the
endpoint-specific HTTP request is never issued. -/
theorem C2_auth_failure_blocks_endpoint (path opName : String)
    (pairs : List (String × String)) (e : Env) (w : World)
    (hc : credsPresent e = true) (ha : (relayAuth e w).1 = Json.null) :
    (relayCall path opName pairs e w).1 = authFailedDict
    ∧ hasEndpointCall (relayCall path opName pairs e w).2 = false := by
  have hp : pyTruthy (relayAuth e w).1 = false := by rw [ha]; rfl
  have ht := relayCall_authFailed path opName pairs e w hc hp
  refine ⟨by rw [ht], ?_⟩
  rw [ht]
  show hasEndpointCall (relayAuth e w).2 = false
  rw [relayAuth_trace]
  rfl

/-- Witness for C2: with credentials present and a timed-out authentication
POST, a relay call returns the authentication-failure dict and performs no
endpoint call. -/
theorem C2_auth_failure_blocks_endpoint_witness :
    (relayCall "/x" "X failed" [] envOK wAuthErr).1 = authFailedDict
    ∧ hasEndpointCall (relayCall "/x" "X failed" [] envOK wAuthErr).2 = false :=
  C2_auth_failure_blocks_endpoint "/x" "X failed" [] envOK wAuthErr rfl rfl

/-- C3: for every relay tool, if any of the three credential variables is
absent from the environment, the tool returns
`{"error": "Missing PrismHR credentials"}` and its I/O trace is empty —
neither the authentication POST nor the endpoint GET is attempted. -/
theorem C3_missing_creds_no_io (path opName : String)
    (pairs : List (String × String)) (e : Env) (w : World)
    (h : getenv e "PRISMHR_USERNAME" = none ∨ getenv e "PRISMHR_PASSWORD" = none
       ∨ getenv e "PRISMHR_PEO_ID" = none) :
    relayCall path opName pairs e w = (missingCredsDict, []) := by
  apply relayCall_missingCreds
  rcases h with h | h | h <;> simp [credsPresent, h, optTruthy]

/-- Witness for C3: with `PRISMHR_PEO_ID` unset, a relay call returns the
missing-credentials dict with an empty trace. -/
theorem C3_missing_creds_no_io_witness :
    relayCall "/x" "X failed" [] envNoPeo wAuthErr = (missingCredsDict, []) :=
  C3_missing_creds_no_io "/x" "X failed" [] envNoPeo wAuthErr (Or.inr (Or.inr rfl))

/-- C4: no exception escapes a relay tool — for every tool and every
environment/network behaviour the returned value is one of the three error
dicts or the upstream JSON body; and in particular every exception raised
by the endpoint GET or the parse of its body (HTTP error, timeout,
malformed JSON) is converted to `{"error": "<operation name>: <message>"}`. -/
theorem C4_no_exception_escapes (path opName : String)
    (pairs : List (String × String)) (e : Env) (w : World) :
    ((relayCall path opName pairs e w).1 = missingCredsDict
      ∨ (relayCall path opName pairs e w).1 = authFailedDict
      ∨ (∃ m, (relayCall path opName pairs e w).1 = errDict opName m)
      ∨ (∃ j, w.endpointOutcome (fullUrl e path pairs) = Except.ok j
          ∧ (relayCall path opName pairs e w).1 = j))
    ∧ (∀ m, credsPresent e = true → pyTruthy (relayAuth e w).1 = true →
        w.endpointOutcome (fullUrl e path pairs) = Except.error m →
        (relayCall path opName pairs e w).1 = errDict opName m) := by
  constructor
  · by_cases hc : credsPresent e
    · by_cases hp : pyTruthy (relayAuth e w).1
      · cases hr : w.endpointOutcome (fullUrl e path pairs) with
        | ok j =>
          exact Or.inr (Or.inr (Or.inr
            ⟨j, rfl, by rw [relayCall_ok path opName pairs e w j hc hp hr]⟩))
        | error m =>
          exact Or.inr (Or.inr (Or.inl
            ⟨m, by rw [relayCall_endpointErr path opName pairs e w m hc hp hr]⟩))
      · exact Or.inr (Or.inl (by
          rw [relayCall_authFailed path opName pairs e w hc (Bool.not_eq_true _ ▸ hp)]))
    · exact Or.inl (by
        rw [relayCall_missingCreds path opName pairs e w (Bool.not_eq_true _ ▸ hc)])
  · intro m hc hp hr
    rw [relayCall_endpointErr path opName pairs e w m hc hp hr]

/-- Witness for C4: with authentication succeeding and the endpoint GET
raising `boom`, a relay call returns the converted error dict. -/
theorem C4_no_exception_escapes_witness :
    (relayCall "/x" "Op failed" [] envOK wEndErr).1 = errDict "Op failed" "boom" :=
  (C4_no_exception_escapes "/x" "Op failed" [] envOK wEndErr).2 "boom" rfl rfl rfl

/-- C5: for every relay tool, when the credentials are present, the
authenticator yields a truthy session value and the upstream responds with
a parseable JSON body of any shape, the tool returns that parsed body
verbatim; and in the §8 scenario (auth stub
`{"errorCode": "0", "sessionId": "abc123"}`, `getEmployeeList` stub
`{"employees": []}`), `get_employee_list` with `client_id="132"` returns
`{"employees": []}`. -/
theorem C5_verbatim_passthrough (path opName : String)
    (pairs : List (String × String)) (e : Env) (w : World) (j : Json)
    (hc : credsPresent e = true) (hp : pyTruthy (relayAuth e w).1 = true)
    (hr : w.endpointOutcome (fullUrl e path pairs) = Except.ok j) :
    (relayCall path opName pairs e w).1 = j
    ∧ (get_employee_list "132" none none envOK wScenario).1
        = Json.obj [("employees", Json.arr [])] :=
  ⟨by rw [relayCall_ok path opName pairs e w j hc hp hr], rfl⟩

/-- Witness for C5: the generic verbatim-passthrough conclusion applied to
the scenario world itself. -/
theorem C5_verbatim_passthrough_witness :
    (relayCall "/services/rest/employee/v1/getEmployeeList" "Get employee list failed"
      [("clientId", "132")] envOK wScenario).1 = Json.obj [("employees", Json.arr [])] :=
  (C5_verbatim_passthrough "/services/rest/employee/v1/getEmployeeList"
    "Get employee list failed" [("clientId", "132")] envOK wScenario
    (Json.obj [("employees", Json.arr [])]) rfl rfl rfl).1

/-- Keys/values produced by the `for i, emp_id in enumerate(employee_id)`
loop of `reprint_1099`, generalized over the starting index: keys part. -/
theorem enumFrom_bracket_keys (n : Nat) (js : List String) :
    ((List.enumFrom n js).map fun p => ("employeeId[" ++ toString p.1 ++ "]", p.2)).map Prod.fst
      = (List.range' n js.length).map fun i => "employeeId[" ++ toString i ++ "]" := by
  induction js generalizing n with
  | nil => rfl
  | cons j js ih => simp [List.enumFrom, List.range', ih]

/-- Values part of the `enumerate` loop of `reprint_1099`. -/
theorem enumFrom_bracket_vals (n : Nat) (js : List String) :
    ((List.enumFrom n js).map fun p => ("employeeId[" ++ toString p.1 ++ "]", p.2)).map Prod.snd
      = js := by
  induction js generalizing n with
  | nil => rfl
  | cons j js ih => simp [List.enumFrom, ih]

/-- Every element of a `doseq`-flattened list entry contributes one pair
with the list's key. -/
theorem doseq_pairs_countP (js : List String) :
    (js.map fun j => (("journalId" : String), j)).countP (fun p => p.1 == "journalId")
      = js.length := by
  induction js with
  | nil => rfl
  | cons j js ih => simp [List.countP_cons, ih]

/-- The `doseq`-flattened pairs carry exactly the list's values in order. -/
theorem doseq_pairs_filterMap (js : List String) :
    (js.map fun j => (("journalId" : String), j)).filterMap
        (fun p => if p.1 == "journalId" then some p.2 else none) = js := by
  induction js with
  | nil => rfl
  | cons j js ih =>
    rw [List.map_cons, List.filterMap_cons]
    simpa using ih

/-- C6 counterexample: `reprint_1099` serializes its array-valued
`employee_id` parameter with bracket-indexed keys, not in repeated-key
form. With `employee_id = ["E1", "E2"]` the outgoing query keys are the
four pairwise-distinct keys `clientId`, `year`, `employeeId[0]`,
`employeeId[1]`: no key occurs once per array element (that would require
some key to occur twice), and the plain repeated key `employeeId` does not
occur at all. -/
theorem C6_bracket_keys_counterexample :
    ((reprint_1099_params "C" ["E1", "E2"] "2024").map Prod.fst).Nodup
    ∧ ((reprint_1099_params "C" ["E1", "E2"] "2024").map Prod.fst).count "employeeId" = 0
    ∧ (reprint_1099_params "C" ["E1", "E2"] "2024").map Prod.fst
        = ["clientId", "year", "employeeId[0]", "employeeId[1]"] := by decide

/-- The `for eid in employee_id: params["employeeId"] = eid` loop of
`download_w2`, once the key already exists in the dict: every further
iteration replaces the value in place, so the fold keeps only the last
element. -/
theorem download_w2_foldl_last (c y v : String) (js : List String) :
    js.foldl (fun params eid => dictAssign params "employeeId" eid)
        [("clientId", c), ("year", y), ("employeeId", v)]
      = [("clientId", c), ("year", y), ("employeeId", js.getLastD v)] := by
  induction js generalizing v with
  | nil => rfl
  | cons j js ih =>
    rw [List.foldl_cons, List.getLastD_cons]
    exact ih j

/-- C6 as amended: array-parameter serialization is endpoint-specific, not
uniform. `get_absence_journal` (like the other `doseq=True` endpoints)
emits one repeated-key pair per element, carrying the elements in order;
`reprint_1099` emits one bracket-indexed `employeeId[i]` pair per element,
in order; `download_w2` (like `download_1095c` and the other
single-key-reassignment loops) reassigns one dict key per element so
exactly one pair survives, carrying only the last element; and
`get_ar_transaction_report` (like `get_unbilled_benefit_adjustments`)
assigns the raw list, so `urlencode` emits one single pair whose value is
Python `str` of the whole list. -/
theorem C6_array_serialization_modes (c y sd ed x : String)
    (js xs : List String) :
    ((get_absence_journal_params c js).countP (fun p => p.1 == "journalId") = js.length
      ∧ (get_absence_journal_params c js).filterMap
          (fun p => if p.1 == "journalId" then some p.2 else none) = js)
    ∧ ((reprint_1099_params c js y).map Prod.fst
        = "clientId" :: "year" :: (List.range' 0 js.length).map
            (fun i => "employeeId[" ++ toString i ++ "]")
      ∧ (reprint_1099_params c js y).map Prod.snd = c :: y :: js)
    ∧ download_w2_params c (x :: xs) y
        = [("clientId", c), ("year", y), ("employeeId", xs.getLastD x)]
    ∧ ((get_ar_transaction_report_params sd ed none (some (x :: xs))).countP
          (fun p => p.1 == "clientId") = 1
      ∧ (get_ar_transaction_report_params sd ed none (some (x :: xs))).lookup "clientId"
          = some (pyReprStrList (x :: xs))) := by
  refine ⟨⟨?_, ?_⟩, ⟨?_, ?_⟩, ?_, ?_, ?_⟩
  · simp [get_absence_journal_params, List.countP_cons, doseq_pairs_countP js]
  · simpa [get_absence_journal_params, List.filterMap_cons] using doseq_pairs_filterMap js
  · simp [reprint_1099_params, List.enum, enumFrom_bracket_keys 0 js]
  · simp [reprint_1099_params, List.enum, enumFrom_bracket_vals 0 js]
  · unfold download_w2_params
    rw [List.foldl_cons]
    exact download_w2_foldl_last c y x xs
  · simp [get_ar_transaction_report_params, optStrPairs, List.countP_cons]
  · simp [get_ar_transaction_report_params, optStrPairs, List.lookup]

/-- C7 counterexample: an optional parameter supplied as the empty string
is dropped by the `if status_class:` truthiness test, so it appears zero
times in the outgoing query — the claim requires every supplied optional
to appear exactly once. -/
theorem C7_empty_string_optional_counterexample :
    (get_employee_list_params "C" (some "") none).countP
        (fun p => p.1 == "statusClass") = 0
    ∧ get_employee_list_params "C" (some "") none = [("clientId", "C")] := by decide

/-- C7 as amended: an optional parameter omitted by the caller never
appears in the outgoing query; a supplied optional string appears exactly
once provided it is truthy (non-empty) — a supplied empty string is
dropped like an omitted one by the `if x:` guard — and a supplied optional
boolean (guarded by `is not None`, so including `False`) appears exactly
once, but its spelling is endpoint-specific: eight of the nine boolean
optionals go through `str(b).lower()` and appear lowercase as
`"true"`/`"false"` (e.g. `get_retirement_plan`), while
`get_payroll_summary` assigns the raw boolean, which `urlencode`
stringifies capitalized as `"True"`/`"False"`. -/
theorem C7_optional_param_rules (c eid : String) :
    ((get_employee_list_params c none none).countP (fun p => p.1 == "statusClass") = 0)
    ∧ (∀ s : String, s ≠ "" →
        (get_employee_list_params c (some s) none).countP
            (fun p => p.1 == "statusClass") = 1
        ∧ (get_employee_list_params c (some s) none).lookup "statusClass" = some s)
    ∧ ((get_retirement_plan_params c eid none none).countP
          (fun p => p.1 == "isActive") = 0)
    ∧ (∀ b : Bool,
        (get_retirement_plan_params c eid none (some b)).countP
            (fun p => p.1 == "isActive") = 1
        ∧ (get_retirement_plan_params c eid none (some b)).lookup "isActive"
            = some (if b then "true" else "false"))
    ∧ ((get_payroll_summary_params c none none none none none).countP
          (fun p => p.1 == "includeDetails") = 0)
    ∧ (∀ b : Bool,
        (get_payroll_summary_params c none none none (some b) none).countP
            (fun p => p.1 == "includeDetails") = 1
        ∧ (get_payroll_summary_params c none none none (some b) none).lookup
            "includeDetails" = some (if b then "True" else "False")) := by
  refine ⟨?_, ?_, ?_, ?_, ?_, ?_⟩
  · simp [get_employee_list_params, optStrPairs, List.countP_cons]
  · intro s hs
    have hsb : (s == "") = false := by simpa using hs
    constructor
    · simp [get_employee_list_params, optStrPairs, hsb, List.countP_cons]
    · simp [get_employee_list_params, optStrPairs, hsb, List.lookup]
  · simp [get_retirement_plan_params, optStrPairs, optBoolPairs, List.countP_cons]
  · intro b
    constructor
    · simp [get_retirement_plan_params, optStrPairs, optBoolPairs, List.countP_cons]
    · simp [get_retirement_plan_params, optStrPairs, optBoolPairs, List.lookup]
  · simp [get_payroll_summary_params, optStrPairs, optBoolRawPairs, List.countP_cons]
  · intro b
    constructor
    · simp [get_payroll_summary_params, optStrPairs, optBoolRawPairs, List.countP_cons]
    · simp [get_payroll_summary_params, optStrPairs, optBoolRawPairs, List.lookup]

/-- Witness for C7: with `status_class="A"` the pair appears once with
value `"A"`; with `is_active=False` the pair appears once with the
lowercase value `"false"`; with `include_details=False` the pair appears
once with the capitalized value `"False"`. -/
theorem C7_optional_param_rules_witness :
    ((get_employee_list_params "C" (some "A") none).countP
        (fun p => p.1 == "statusClass") = 1
      ∧ (get_employee_list_params "C" (some "A") none).lookup "statusClass" = some "A")
    ∧ ((get_retirement_plan_params "C" "E" none (some false)).countP
        (fun p => p.1 == "isActive") = 1
      ∧ (get_retirement_plan_params "C" "E" none (some false)).lookup "isActive"
          = some "false")
    ∧ ((get_payroll_summary_params "C" none none none (some false) none).countP
        (fun p => p.1 == "includeDetails") = 1
      ∧ (get_payroll_summary_params "C" none none none (some false) none).lookup
          "includeDetails" = some "False") := by
  refine ⟨(C7_optional_param_rules "C" "E").2.1 "A" (by decide), ?_, ?_⟩
  · have h := (C7_optional_param_rules "C" "E").2.2.2.1 false
    simpa using h
  · have h := (C7_optional_param_rules "C" "E").2.2.2.2.2 false
    simpa using h

/-- C8: invoking a tool with a required parameter omitted never enters the
function body — Python rejects the call against the declared signature —
so the invocation yields an error outcome and the I/O trace is empty (no
network call at all, which is within "at most the authentication call"). -/
theorem C8_required_param_omitted_no_io (ss ts : Option String) (c : String)
    (js : Option (List String)) (e : Env) (w : World) :
    (invoke_get_employee_list none ss ts e w
        = (Except.error "TypeError: missing required argument client_id", []))
    ∧ ((invoke_get_absence_journal none js e w).2 = []
      ∧ ∃ m, (invoke_get_absence_journal none js e w).1 = Except.error m)
    ∧ ((invoke_get_absence_journal (some c) none e w).2 = []
      ∧ ∃ m, (invoke_get_absence_journal (some c) none e w).1 = Except.error m) := by
  refine ⟨rfl, ⟨?_, ?_⟩, ⟨rfl, ⟨_, rfl⟩⟩⟩
  · cases js <;> rfl
  · cases js <;> exact ⟨_, rfl⟩

/-- C9: an authentication response whose `errorCode` is `"0"` but which
lacks a `sessionId` field (Python `dict.get` gives `None`) or carries an
empty-string `sessionId` is treated exactly like an authentication
failure: the authenticator returns a falsy token, the tool returns
`{"error": "Authentication failed"}`, and the endpoint GET is not
attempted. -/
theorem C9_missing_session_auth_failure (path opName : String)
    (pairs : List (String × String)) (e : Env) (w : World)
    (kvs : List (String × Json))
    (hc : credsPresent e = true)
    (hw : w.authOutcome = Except.ok (Json.obj kvs))
    (hec : kvs.lookup "errorCode" = some (Json.str "0"))
    (hsid : kvs.lookup "sessionId" = none ∨ kvs.lookup "sessionId" = some (Json.str "")) :
    ((relayAuth e w).1 = Json.null ∨ (relayAuth e w).1 = Json.str "")
    ∧ (relayCall path opName pairs e w).1 = authFailedDict
    ∧ hasEndpointCall (relayCall path opName pairs e w).2 = false := by
  have hval : (relayAuth e w).1 = (kvs.lookup "sessionId").getD Json.null := by
    unfold relayAuth authenticate_prismhr
    rw [hw]
    simp [dictGet, hec, isStrZero, pyGet]
  have hfalsy : pyTruthy (relayAuth e w).1 = false := by
    rcases hsid with h | h <;> rw [hval, h] <;> rfl
  have ht := relayCall_authFailed path opName pairs e w hc hfalsy
  refine ⟨?_, by rw [ht], ?_⟩
  · rcases hsid with h | h
    · exact Or.inl (by rw [hval, h]; rfl)
    · exact Or.inr (by rw [hval, h]; rfl)
  · rw [ht]
    show hasEndpointCall (relayAuth e w).2 = false
    rw [relayAuth_trace]
    rfl

/-- Witness for C9: the concrete response `{"errorCode": "0"}` with no
`sessionId` field leads to the authentication-failure dict and no endpoint
call. -/
theorem C9_missing_session_auth_failure_witness :
    ((relayAuth envOK wNoSession).1 = Json.null ∨ (relayAuth envOK wNoSession).1 = Json.str "")
    ∧ (relayCall "/x" "X failed" [] envOK wNoSession).1 = authFailedDict
    ∧ hasEndpointCall (relayCall "/x" "X failed" [] envOK wNoSession).2 = false :=
  C9_missing_session_auth_failure "/x" "X failed" [] envOK wNoSession
    [("errorCode", Json.str "0")] rfl rfl rfl (Or.inl rfl)

/-- C10: a credential environment variable set to the empty string is
treated identically to an unset one — truthiness, not existence, is what
`all([username, password, peo_id])` tests — so the tool returns
`{"error": "Missing PrismHR credentials"}` with an empty I/O trace. -/
theorem C10_empty_credential_like_unset (path opName : String)
    (pairs : List (String × String)) (e : Env) (w : World)
    (h : getenv e "PRISMHR_USERNAME" = some "" ∨ getenv e "PRISMHR_PASSWORD" = some ""
       ∨ getenv e "PRISMHR_PEO_ID" = some "") :
    relayCall path opName pairs e w = (missingCredsDict, []) := by
  apply relayCall_missingCreds
  rcases h with h | h | h <;> simp [credsPresent, h, optTruthy]

/-- Witness for C10: `PRISMHR_PEO_ID=""` behaves like the unset case. -/
theorem C10_empty_credential_like_unset_witness :
    relayCall "/x" "X failed" [] envEmptyPeo wAuthErr = (missingCredsDict, []) :=
  C10_empty_credential_like_unset "/x" "X failed" [] envEmptyPeo wAuthErr
    (Or.inr (Or.inr rfl))
